import Mathlib

/-!
# Verification of the tinygraph-ts graph execution engine

Shallow embedding of the `Graph<T>` class (src, ~170 lines of TypeScript):
a directed-graph workflow runner with a context/patch model, a node
registry, a transition table, and a `step`/`run` execution loop.

Modelling conventions:
* A context (`Ctx V`) is a map from string keys to values, modelled as
  `String → Option V`; the JS object spread `{...c, ...p}` is `mergeCtx`.
* JS `Map` is an association list with replace-on-set (`mapSet`/`mapGet`);
  JS `Set` is a duplicate-free list in insertion order (`setAdd`).
* A thrown JS exception (or a rejected promise, which `await` unifies with
  a throw) is the `Except JsErr` error monad.  A JS function that may
  throw — a node's `next`, or a function patch — returns `Except JsErr _`.
* `undefined`/`void` results are `Option`.
* The `while (await this.step(context)) {}` loop of `run` is modelled with
  explicit fuel; `Except.ok none` means the fuel ran out (the loop did not
  terminate within the bound), never an error.
-/

namespace Tinygraph

/-- `Ctx<T>`: the accumulated context, a string-keyed map of values.
Also used for `Partial<Ctx<T>>` patch mappings. -/
abbrev Ctx (V : Type) := String → Option V

/-- JS object spread `{...context, ...patch}`: keys present in `patch`
override, all other keys of `context` are retained. -/
def mergeCtx {V : Type} (context patch : Ctx V) : Ctx V :=
  fun k => match patch k with
  | some v => some v
  | none => context k

/-- The runtime errors that can arise in the engine or in user code. -/
inductive JsErr where
  /-- property access on `undefined` -/
  | typeError : JsErr
  /-- `throw new Error("Invalid transition from l > r")` in `step` -/
  | invalidTransition : String → String → JsErr
  /-- `throw new Error("Cannot start from node that has not been registered ...")` -/
  | startNotRegistered : JsErr
  /-- an arbitrary error thrown by user code (a node body or a function patch) -/
  | thrown : String → JsErr
deriving Repr, DecidableEq

/-- `Patch<T> = Partial<Ctx<T>> | PatchFn<T>`: either a static mapping of
keys to merge in, or a function of the current snapshot producing one.
A function patch is arbitrary user code, so it may throw. -/
inductive Patch (V : Type) where
  | static : Ctx V → Patch V
  | fn : (Ctx V → Except JsErr (Ctx V)) → Patch V

/-- `RunResult<T> = { context?: Patch<T>; transition?: string }`. -/
structure RunResult (V : Type) where
  context : Option (Patch V) := none
  transition : Option String := none

/-- `Node<T>`: the single-operation node interface.  `next` receives the
current context and the list of available transitions (`Array.from` of the
outgoing set) and yields an optional `RunResult`, or throws/rejects. -/
structure Node (V : Type) where
  next : Ctx V → List String → Except JsErr (Option (RunResult V))

/-- The `_currentNode` record `{ node, key }`.  The `node` component is an
`Option` because `step` stores `this._nodes.get(transition)!`, which is
`undefined` when the transition target was never registered as a node. -/
structure CurrentNode (V : Type) where
  node : Option (Node V)
  key : String

/-- JS `Map.get`. -/
def mapGet {A : Type} (m : List (String × A)) (k : String) : Option A :=
  match m with
  | [] => none
  | (k', v) :: rest => if k' = k then some v else mapGet rest k

/-- JS `Map.set`: replaces the entry for `k` if present, else appends. -/
def mapSet {A : Type} (m : List (String × A)) (k : String) (v : A) :
    List (String × A) :=
  match m with
  | [] => [(k, v)]
  | (k', v') :: rest =>
      if k' = k then (k, v) :: rest else (k', v') :: mapSet rest k v

/-- JS `Set.add` on a duplicate-free list in insertion order. -/
def setAdd (s : List String) (r : String) : List String :=
  if r ∈ s then s else s ++ [r]

/-- The `Graph<T>` class state: context, current pointer, transition table
(`Map<string, Set<string>>`) and node registry (`Map<string, Node<T>>`). -/
structure Graph (V : Type) where
  _context : Ctx V
  _currentNode : Option (CurrentNode V)
  _transitions : List (String × List String)
  _nodes : List (String × Node V)

namespace Graph

variable {V : Type}

/-- The constructor: `this._context = {} as Ctx<T>`, empty maps, no
current node. -/
def new : Graph V :=
  { _context := fun _ => none
    _currentNode := none
    _transitions := []
    _nodes := [] }

/-- `applyPatch(context, patch?)`: absent patch returns the context
unchanged; a function patch is invoked once on the pre-merge snapshot and
its result (or its thrown error) is propagated; a static patch is
shallow-merged.  Mirrors lines 48–61 of the source. -/
def applyPatch (context : Ctx V) (patch : Option (Patch V)) :
    Except JsErr (Ctx V) :=
  match patch with
  | none => .ok context
  | some (.fn f) =>
      match f context with
      | .error e => .error e
      | .ok p => .ok (mergeCtx context p)
  | some (.static p) => .ok (mergeCtx context p)

/-- `get context()`. -/
def context (g : Graph V) : Ctx V := g._context

/-- `get current()`: `this._currentNode?.key`. -/
def current (g : Graph V) : Option String :=
  g._currentNode.map (fun cn => cn.key)

/-- `get availableTransitions()`: `this._transitions.get(this._currentNode!.key)`.
The `!` is only a TypeScript assertion: at runtime, when `_currentNode` is
`undefined`, reading `.key` on it throws a `TypeError`; otherwise the map
lookup yields the outgoing set or `undefined`. -/
def availableTransitions (g : Graph V) : Except JsErr (Option (List String)) :=
  match g._currentNode with
  | none => .error .typeError
  | some cn => .ok (mapGet g._transitions cn.key)

/-- `edge(l, r)`: adds `r` to the outgoing set of `l`, creating the set
when absent; returns the builder. -/
def edge (g : Graph V) (l r : String) : Graph V :=
  match mapGet g._transitions l with
  | none => { g with _transitions := mapSet g._transitions l [r] }
  | some existing =>
      { g with _transitions := mapSet g._transitions l (setAdd existing r) }

/-- `node(key, toAdd)`: inserts or overwrites the registry entry. -/
def node (g : Graph V) (key : String) (toAdd : Node V) : Graph V :=
  { g with _nodes := mapSet g._nodes key toAdd }

/-- `setStart(nodeName)`: throws synchronously when `nodeName` is not in
the registry (the graph is left unmodified, since the throw precedes the
assignment); otherwise sets the current pointer and returns the builder. -/
def setStart (g : Graph V) (nodeName : String) : Except JsErr (Graph V) :=
  match mapGet g._nodes nodeName with
  | none => .error .startNotRegistered
  | some nd =>
      .ok { g with _currentNode := some { node := some nd, key := nodeName } }

/-- The tail of `step` after the node result's patch has been handled:
lines 160–176 of the source.  `if (!transition) return false` is a JS
falsiness check on a `string | undefined`: both `undefined` and the empty
string `""` are falsy and terminate normally.  A non-empty transition
absent from the current node's outgoing set raises the invalid-transition
error, which the surrounding `catch` turns into a non-continuing result; a
wired non-empty transition advances the pointer, storing
`this._nodes.get(transition)!` (possibly `undefined`). -/
def stepTail (g : Graph V) (cn : CurrentNode V) (transition : Option String) :
    Except JsErr (Graph V × Bool) :=
  match transition with
  | none => .ok (g, false)
  | some t =>
      if t = "" then .ok (g, false)
      else
        match mapGet g._transitions cn.key with
        | none => .ok (g, false)
        | some neighbors =>
            if t ∈ neighbors then
              .ok ({ g with _currentNode := some { node := mapGet g._nodes t, key := t } },
                    true)
            else
              .ok (g, false)

/-- `step(context?)`, lines 136–184 of the source.  The incoming patch is
applied BEFORE the `try` block, so its errors propagate to the caller.
Inside the `try`: a missing current node short-circuits the optional-chained
call (`undefined` result, "done"); a current node whose stored instance is
`undefined` throws a `TypeError` on the `.next` access, caught below; a
node throw, a throwing returned function patch, and an invalid transition
are all caught and reported as "not continuing", keeping every context
mutation committed before the throw. -/
def step (g : Graph V) (patch? : Option (Patch V)) :
    Except JsErr (Graph V × Bool) :=
  match applyPatch g._context patch? with
  | .error e => .error e
  | .ok ctx =>
    let g1 : Graph V := { g with _context := ctx }
    match g1._currentNode with
    | none => .ok (g1, false)
    | some cn =>
      match cn.node with
      | none => .ok (g1, false)
      | some nd =>
        match nd.next g1._context ((mapGet g1._transitions cn.key).getD []) with
        | .error _ => .ok (g1, false)
        | .ok none => .ok (g1, false)
        | .ok (some res) =>
          match res.context with
          | none => stepTail g1 cn res.transition
          | some p =>
              match applyPatch g1._context (some p) with
              | .error _ => .ok (g1, false)
              | .ok ctx2 => stepTail { g1 with _context := ctx2 } cn res.transition

/-- The `while (await this.step(context)) {}` loop of `run`, with fuel.
Note that `run` passes its own `context` argument to EVERY `step` call.
`Except.ok none` means the fuel bound was reached. -/
def runLoop (g : Graph V) (patch? : Option (Patch V)) :
    Nat → Except JsErr (Option (Ctx V))
  | 0 => .ok none
  | fuel + 1 =>
      match step g patch? with
      | .error e => .error e
      | .ok (g', cont) =>
          if cont then runLoop g' patch? fuel else .ok (some g'._context)

/-- `run(context?)`, lines 118–124 of the source: applies the patch (its
errors propagate, `run` being `async`), then loops `step(context)` until it
reports false, and returns the final context. -/
def run (g : Graph V) (patch? : Option (Patch V)) (fuel : Nat) :
    Except JsErr (Option (Ctx V)) :=
  match applyPatch g._context patch? with
  | .error e => .error e
  | .ok ctx => runLoop { g with _context := ctx } patch? fuel

end Graph

/-- `true` iff an `Except` computation succeeded (a promise that resolved
rather than rejected). -/
def exceptOk {E A : Type} : Except E A → Bool
  | .ok _ => true
  | .error _ => false

/-- `n`-fold repetition of `edge l r` on the same graph. -/
def edgeIter {V : Type} (g : Graph V) (l r : String) : Nat → Graph V
  | 0 => g
  | n + 1 => (edgeIter g l r n).edge l r

/-! ### Concrete graphs used as witnesses and counterexamples -/

/-- A node whose `next` returns nothing: intentional termination. -/
def nodeStop : Node Nat := ⟨fun _ _ => .ok none⟩

/-- A function patch whose body throws. -/
def throwingPatch : Patch Nat := Patch.fn (fun _ => .error (.thrown "patch boom"))

/-- The static patch `{ x: n }`. -/
def patchX (n : Nat) : Ctx Nat := fun k => if k = "x" then some n else none

/-- Builder state for C1: one registered node `"A"` that terminates. -/
def gC1 : Graph Nat := Graph.new.node "A" nodeStop

/-- The graph of `gC1` after `setStart("A")`. -/
def gC1s : Graph Nat := { gC1 with _currentNode := some ⟨some nodeStop, "A"⟩ }

/-- Node for C2: patches `{ x: 2 }` and transitions to `"B"`. -/
def nodeA2 : Node Nat :=
  ⟨fun _ _ => .ok (some { context := some (.static (patchX 2)), transition := some "B" })⟩

/-- Builder state for C2: `A → B`, `A` patches `x := 2`, `B` terminates. -/
def gC2 : Graph Nat := ((Graph.new.node "A" nodeA2).node "B" nodeStop).edge "A" "B"

/-- The graph of `gC2` after `setStart("A")`. -/
def gC2s : Graph Nat := { gC2 with _currentNode := some ⟨some nodeA2, "A"⟩ }

/-- Node for C3: returns transition `"Z"` with no patch. -/
def nodeA3 : Node Nat := ⟨fun _ _ => .ok (some { transition := some "Z" })⟩

/-- Builder state for C3: edge `A → Z` is wired but `"Z"` is never
registered as a node. -/
def gC3 : Graph Nat := (Graph.new.node "A" nodeA3).edge "A" "Z"

/-- The graph of `gC3` after `setStart("A")`. -/
def gC3s : Graph Nat := { gC3 with _currentNode := some ⟨some nodeA3, "A"⟩ }

/-- Node for C4: patches `{ x: 4 }` and returns transition `"Z"`, which is
not wired from `"A"` (only `"B"` is). -/
def nodeA4 : Node Nat :=
  ⟨fun _ _ => .ok (some { context := some (.static (patchX 4)), transition := some "Z" })⟩

/-- Builder state for C4: nodes `A`, `B`; only edge `A → B`. -/
def gC4 : Graph Nat := ((Graph.new.node "A" nodeA4).node "B" nodeStop).edge "A" "B"

/-- The graph of `gC4` after `setStart("A")`. -/
def gC4s : Graph Nat := { gC4 with _currentNode := some ⟨some nodeA4, "A"⟩ }

/-- Witness context for C5: `{ a: 1, b: 2 }`. -/
def c5ctx : Ctx Nat :=
  fun k => if k = "a" then some 1 else if k = "b" then some 2 else none

/-- Witness static patch for C5: `{ a: 10 }`. -/
def c5patch : Ctx Nat := fun k => if k = "a" then some 10 else none

/-- Witness function patch body for C5: always produces `{ x: 7 }`. -/
def c5fn : Ctx Nat → Except JsErr (Ctx Nat) := fun _ => .ok (patchX 7)

/-- Builder state for C6: one registered node `"A"`. -/
def gC6 : Graph Nat := Graph.new.node "A" nodeStop

/-- Node `A` of the C7 chain: patches `{ a: 1 }` and transitions to `"B"`. -/
def nodeA7 : Node Nat :=
  ⟨fun _ _ => .ok (some { context := some (.static (fun k => if k = "a" then some 1 else none)),
                          transition := some "B" })⟩

/-- Node `C` of the C7 chain: patches `{ c: 1 }` (so running it is
observable in the final context). -/
def nodeC7 : Node Nat :=
  ⟨fun _ _ => .ok (some { context := some (.static (fun k => if k = "c" then some 1 else none)) })⟩

/-- Builder state for C7: chain `A → B → C` where `B` returns nothing even
though the edge `B → C` exists. -/
def gC7 : Graph Nat :=
  ((((Graph.new.node "A" nodeA7).node "B" nodeStop).node "C" nodeC7).edge "A" "B").edge "B" "C"

/-- The graph of `gC7` after `setStart("A")`. -/
def gC7s : Graph Nat := { gC7 with _currentNode := some ⟨some nodeA7, "A"⟩ }

/-- The C7 chain graph with the pointer at `B` (the state reached after
`A`'s step). -/
def gC7b : Graph Nat := { gC7 with _currentNode := some ⟨some nodeStop, "B"⟩ }

/-- Graph for C10: a current node is set but has no registered outgoing
edges. -/
def gC10 : Graph Nat :=
  { (Graph.new.node "A" nodeStop : Graph Nat) with _currentNode := some ⟨some nodeStop, "A"⟩ }

/-! ### Helper lemmas about the map and set embeddings -/

theorem mapGet_mapSet_self {A : Type} (m : List (String × A)) (k : String) (v : A) :
    mapGet (mapSet m k v) k = some v := by
  induction m with
  | nil => simp [mapSet, mapGet]
  | cons hd tl ih =>
      obtain ⟨k', v'⟩ := hd
      by_cases h : k' = k
      · simp [mapSet, h, mapGet]
      · simp [mapSet, h, mapGet, ih]

theorem mapSet_mapSet_self {A : Type} (m : List (String × A)) (k : String) (v w : A) :
    mapSet (mapSet m k v) k w = mapSet m k w := by
  induction m with
  | nil => simp [mapSet]
  | cons hd tl ih =>
      obtain ⟨k', v'⟩ := hd
      by_cases h : k' = k
      · simp [mapSet, h]
      · simp [mapSet, h, ih]

theorem mem_setAdd_self (s : List String) (r : String) : r ∈ setAdd s r := by
  unfold setAdd
  split
  · assumption
  · simp

theorem setAdd_of_mem {s : List String} {r : String} (h : r ∈ s) : setAdd s r = s := by
  unfold setAdd
  exact if_pos h

theorem edge_idem {V : Type} (g : Graph V) (l r : String) :
    (g.edge l r).edge l r = g.edge l r := by
  cases h : mapGet g._transitions l with
  | none =>
      simp only [Graph.edge, h, mapGet_mapSet_self, mapSet_mapSet_self,
        setAdd_of_mem (show r ∈ [r] by simp)]
  | some s =>
      simp only [Graph.edge, h, mapGet_mapSet_self, mapSet_mapSet_self,
        setAdd_of_mem (mem_setAdd_self s r)]

/-! ### Helper lemmas: the guarded region of `step` never raises -/

theorem applyPatch_none {V : Type} (c : Ctx V) :
    Graph.applyPatch c none = .ok c := rfl

theorem stepTail_never_errors {V : Type} (g : Graph V) (cn : CurrentNode V)
    (transition : Option String) :
    ∃ pr, Graph.stepTail g cn transition = .ok pr := by
  unfold Graph.stepTail
  repeat' first
  | exact ⟨_, rfl⟩
  | split

theorem step_never_errors {V : Type} (g : Graph V) (patch? : Option (Patch V))
    (h : ∃ c', Graph.applyPatch g._context patch? = .ok c') :
    ∃ pr, g.step patch? = .ok pr := by
  obtain ⟨c', hc'⟩ := h
  unfold Graph.step
  rw [hc']
  dsimp only
  repeat' first
  | exact ⟨_, rfl⟩
  | apply stepTail_never_errors
  | split

theorem runLoop_never_errors {V : Type} (patch? : Option (Patch V))
    (h : ∀ c : Ctx V, ∃ c', Graph.applyPatch c patch? = .ok c') :
    ∀ (fuel : Nat) (g : Graph V), ∃ r, Graph.runLoop g patch? fuel = .ok r := by
  intro fuel
  induction fuel with
  | zero => exact fun g => ⟨none, rfl⟩
  | succ n ih =>
      intro g
      obtain ⟨pr, hpr⟩ := step_never_errors g patch? (h g._context)
      obtain ⟨g', cont⟩ := pr
      cases cont with
      | false => exact ⟨some g'._context, by unfold Graph.runLoop; rw [hpr]; rfl⟩
      | true =>
          obtain ⟨r, hr⟩ := ih g'
          exact ⟨r, by unfold Graph.runLoop; rw [hpr]; simpa using hr⟩

/-! ### The claims -/

/-- Claim C5: `applyPatch` is exactly shallow merge.  An absent patch
returns the context unchanged; a static patch overwrites exactly the keys
it defines and leaves every other key of the context unchanged; a function
patch is invoked once on the pre-merge snapshot `c` and the context is
shallow-merged with its result `q`. -/
theorem applyPatch_shallow_merge {V : Type} (c p : Ctx V)
    (f : Ctx V → Except JsErr (Ctx V)) :
    Graph.applyPatch c none = .ok c
    ∧ Graph.applyPatch c (some (Patch.static p)) = .ok (mergeCtx c p)
    ∧ (∀ k v, p k = some v → mergeCtx c p k = some v)
    ∧ (∀ k, p k = none → mergeCtx c p k = c k)
    ∧ (∀ q, f c = .ok q →
        Graph.applyPatch c (some (Patch.fn f)) = .ok (mergeCtx c q)) := by
  refine ⟨rfl, rfl, ?_, ?_, ?_⟩
  · intro k v h
    simp [mergeCtx, h]
  · intro k h
    simp [mergeCtx, h]
  · intro q h
    simp [Graph.applyPatch, h]

/-- Witness for C5 on `{a:1, b:2}` with static patch `{a:10}` and a
function patch producing `{x:7}`. -/
theorem applyPatch_shallow_merge_witness :
    mergeCtx c5ctx c5patch "a" = some 10
    ∧ mergeCtx c5ctx c5patch "b" = some 2
    ∧ Graph.applyPatch c5ctx (some (Patch.fn c5fn)) = .ok (mergeCtx c5ctx (patchX 7)) :=
  ⟨(applyPatch_shallow_merge c5ctx c5patch c5fn).2.2.1 "a" 10 rfl,
   (applyPatch_shallow_merge c5ctx c5patch c5fn).2.2.2.1 "b" rfl,
   (applyPatch_shallow_merge c5ctx c5patch c5fn).2.2.2.2 (patchX 7) rfl⟩

/-- Claim C6: `setStart(name)` with an unregistered name raises its error
synchronously (the throw precedes the pointer assignment, so no current
pointer is established); with a registered name it establishes the current
pointer to that node and returns the builder with all other state intact. -/
theorem setStart_registry_check {V : Type} (g : Graph V) (name : String) :
    (mapGet g._nodes name = none → g.setStart name = .error .startNotRegistered)
    ∧ (∀ nd, mapGet g._nodes name = some nd →
        g.setStart name = .ok { g with _currentNode := some ⟨some nd, name⟩ }
        ∧ ({ g with _currentNode := some ⟨some nd, name⟩ } : Graph V).current
            = some name) := by
  constructor
  · intro h
    simp [Graph.setStart, h]
  · intro nd h
    exact ⟨by simp [Graph.setStart, h], rfl⟩

/-- Witness for C6: an empty registry rejects `"A"`; `gC6` accepts it and
the pointer lands on `"A"`. -/
theorem setStart_registry_check_witness :
    (Graph.new : Graph Nat).setStart "A" = .error .startNotRegistered
    ∧ gC6.setStart "A" = .ok { gC6 with _currentNode := some ⟨some nodeStop, "A"⟩ }
    ∧ ({ gC6 with _currentNode := some ⟨some nodeStop, "A"⟩ } : Graph Nat).current
        = some "A" :=
  ⟨(setStart_registry_check (Graph.new : Graph Nat) "A").1 rfl,
   ((setStart_registry_check gC6 "A").2 nodeStop rfl).1,
   ((setStart_registry_check gC6 "A").2 nodeStop rfl).2⟩

/-- Claim C8: edge registration is idempotent and set-valued: repeating
`edge l r` any positive number of times equals doing it once, and in the
concrete scenario `edge(A,B); edge(A,B); edge(A,C)` the
`availableTransitions` accessor (with `A` current via `setStart`) exposes
exactly the two-element set `{B, C}`. -/
theorem edge_idempotent_and_set_valued {V : Type} (g : Graph V) (l r : String) :
    (g.edge l r).edge l r = g.edge l r
    ∧ (∀ n, edgeIter g l r (n + 1) = g.edge l r)
    ∧ ((((Graph.new.node "A" nodeStop).edge "A" "B").edge "A" "B").edge "A" "C"
        |>.setStart "A").bind Graph.availableTransitions = .ok (some ["B", "C"]) := by
  refine ⟨edge_idem g l r, ?_, rfl⟩
  intro n
  induction n with
  | zero => rfl
  | succ m ih =>
      calc edgeIter g l r (m + 2) = (edgeIter g l r (m + 1)).edge l r := rfl
        _ = ((g.edge l r)).edge l r := by rw [ih]
        _ = g.edge l r := edge_idem g l r

/-- Claim C10: the `availableTransitions` accessor is partial: with no
current node it throws a `TypeError` (property access on `undefined`);
with a current node that has no outgoing edges it yields `undefined`
(modelled `none`) rather than an empty set. -/
theorem availableTransitions_is_partial_accessor {V : Type} (g : Graph V) :
    (g._currentNode = none → g.availableTransitions = .error .typeError)
    ∧ (∀ cn, g._currentNode = some cn → mapGet g._transitions cn.key = none →
        g.availableTransitions = .ok none) := by
  constructor
  · intro h
    simp [Graph.availableTransitions, h]
  · intro cn h1 h2
    simp [Graph.availableTransitions, h1, h2]

/-- Witness for C10: a fresh graph throws; `gC10` (current node `"A"`, no
edges) yields `undefined`. -/
theorem availableTransitions_partiality_witness :
    (Graph.new : Graph Nat).availableTransitions = .error .typeError
    ∧ gC10.availableTransitions = .ok none :=
  ⟨(availableTransitions_is_partial_accessor (Graph.new : Graph Nat)).1 rfl,
   (availableTransitions_is_partial_accessor gC10).2 ⟨some nodeStop, "A"⟩ rfl rfl⟩

/-- Counterexample to claim C1 as stated: on `gC1` the `setStart("A")`
call succeeds, yet `run` REJECTS when the initial patch is a function
patch whose body throws — the initial patch application sits outside the
`try` block of `step` and outside any guard in `run`. -/
theorem run_rejects_on_throwing_initial_patch :
    gC1.setStart "A" = .ok gC1s
    ∧ gC1s.run (some throwingPatch) 3 = .error (.thrown "patch boom") :=
  ⟨rfl, rfl⟩

/-- Claim C1 as amended: provided applying the initial patch never throws
(true of an absent patch, of every static patch, and of any non-throwing
function patch), `run` never rejects, whatever the nodes do — node throws,
invalid transitions and node-returned patch failures are all contained. -/
theorem run_never_rejects_of_patch_ok {V : Type} (g : Graph V)
    (patch? : Option (Patch V))
    (h : ∀ c : Ctx V, ∃ c', Graph.applyPatch c patch? = .ok c') (fuel : Nat) :
    exceptOk (g.run patch? fuel) = true := by
  obtain ⟨c₁, hc₁⟩ := h g._context
  obtain ⟨r, hr⟩ := runLoop_never_errors patch? h fuel { g with _context := c₁ }
  simp only [Graph.run, hc₁]
  rw [hr]
  rfl

/-- Witness for the amended C1 on `gC1s` with a static initial patch. -/
theorem run_never_rejects_witness :
    exceptOk (gC1s.run (some (Patch.static (patchX 5))) 3) = true :=
  run_never_rejects_of_patch_ok gC1s (some (Patch.static (patchX 5)))
    (fun c => ⟨mergeCtx c (patchX 5), rfl⟩) 3

/-- Claim C2, evaluated at the failing input: `run` forwards its initial
patch to EVERY `step` call, so on the chain `A → B` (where `A` patches
`x := 2`) running with initial patch `{x: 1}` ends with `x = 1` — the
initial patch is re-applied before `B`'s step, clobbering `A`'s update.
Stepping manually and passing the initial patch only to the first `step`
(the discipline the source's own doc comment prescribes, and what the
claim describes) ends with `x = 2`. -/
theorem run_reapplies_initial_patch_each_step :
    (gC2s.run (some (Patch.static (patchX 1))) 5).map (fun r? => r?.map (fun c => c "x"))
      = .ok (some (some 1))
    ∧ ((gC2s.step (some (Patch.static (patchX 1)))).bind (fun r => r.1.step none)).map
        (fun r => r.1._context "x") = .ok (some 2) :=
  ⟨rfl, rfl⟩

/-- Counterexample to claim C3 as stated: on `gC3s` the node returns the
transition `"Z"`, which is wired as an edge but NOT present in the node
registry; `step` nevertheless reports `true` (continuing) and the current
pointer advances to `"Z"`. -/
theorem step_advances_to_unregistered_wired_target :
    (gC3s.step none).map (fun r => (r.2, r.1.current)) = .ok (true, some "Z")
    ∧ mapGet gC3s._nodes "Z" = none :=
  ⟨rfl, rfl⟩

/-- Claim C3 as amended: transition validation checks the wired outgoing
edge set, not the node registry (an empty-string transition is falsy in
JS and terminates normally before validation, hence the `t ≠ ""`
hypothesis).  A returned non-empty transition that is wired but
unregistered advances the pointer to the unregistered name (storing an
`undefined` node instance) with `step` reporting `true`; the failure only
surfaces on the FOLLOWING step, which reports "not continuing" (the
`TypeError` on the `undefined` node is contained) without invoking any
node or moving the pointer further. -/
theorem step_wired_unregistered_target_advances {V : Type} (g : Graph V)
    (cn : CurrentNode V) (nd : Node V) (t : String) (ns : List String)
    (hc : g._currentNode = some cn) (hn : cn.node = some nd)
    (hnext : nd.next g._context ((mapGet g._transitions cn.key).getD [])
        = .ok (some { context := none, transition := some t }))
    (hne : t ≠ "")
    (hns : mapGet g._transitions cn.key = some ns) (ht : t ∈ ns)
    (hreg : mapGet g._nodes t = none) :
    g.step none = .ok ({ g with _currentNode := some ⟨none, t⟩ }, true)
    ∧ ({ g with _currentNode := some ⟨none, t⟩ } : Graph V).step none
        = .ok ({ g with _currentNode := some ⟨none, t⟩ }, false) := by
  constructor
  · simp only [Graph.step, applyPatch_none, hc, hn, hnext]
    simp only [Graph.stepTail, hne, if_false, hns, hreg, ht, if_true]
  · rfl

/-- Witness for the amended C3 on `gC3s` (edge `A → Z`, `Z` unregistered). -/
theorem step_wired_unregistered_witness :
    gC3s.step none = .ok ({ gC3s with _currentNode := some ⟨none, "Z"⟩ }, true)
    ∧ ({ gC3s with _currentNode := some ⟨none, "Z"⟩ } : Graph Nat).step none
        = .ok ({ gC3s with _currentNode := some ⟨none, "Z"⟩ }, false) :=
  step_wired_unregistered_target_advances gC3s ⟨some nodeA3, "A"⟩ nodeA3 "Z" ["Z"]
    rfl rfl rfl (by decide) rfl (by simp) rfl

/-- Claim C4: when the active node returns a context patch together with a
transition absent from its wired outgoing set, the patch is merged before
the transition is validated (the final context `ctx2` includes it), the
current pointer does not change, `step` returns `false`, and `run`
resolves with the context that includes the node's own patch. -/
theorem step_invalid_transition_merges_patch_first {V : Type} (g : Graph V)
    (cn : CurrentNode V) (nd : Node V) (p : Patch V) (t : String) (ctx2 : Ctx V)
    (fuel : Nat)
    (hc : g._currentNode = some cn) (hn : cn.node = some nd)
    (hnext : nd.next g._context ((mapGet g._transitions cn.key).getD [])
        = .ok (some { context := some p, transition := some t }))
    (hp : Graph.applyPatch g._context (some p) = .ok ctx2)
    (hwired : ∀ ns, mapGet g._transitions cn.key = some ns → t ∉ ns) :
    g.step none = .ok ({ g with _context := ctx2 }, false)
    ∧ g.run none (fuel + 1) = .ok (some ctx2) := by
  have hstep : g.step none = .ok ({ g with _context := ctx2 }, false) := by
    simp only [Graph.step, applyPatch_none, hc, hn, hnext, hp, Graph.stepTail]
    by_cases hte : t = ""
    · rw [if_pos hte]
    · rw [if_neg hte]
      cases hns : mapGet g._transitions cn.key with
      | none => rfl
      | some ns => simp only [hns, hwired ns hns, if_false]
  refine ⟨hstep, ?_⟩
  simp only [Graph.run, applyPatch_none, Graph.runLoop, hstep]
  simp

/-- Witness for C4 on `gC4s` (node `A` patches `{x:4}` and routes to the
unwired `"Z"`). -/
theorem step_invalid_transition_witness :
    gC4s.step none = .ok ({ gC4s with _context := mergeCtx gC4s._context (patchX 4) }, false)
    ∧ gC4s.run none 1 = .ok (some (mergeCtx gC4s._context (patchX 4))) :=
  step_invalid_transition_merges_patch_first gC4s ⟨some nodeA4, "A"⟩ nodeA4
    (Patch.static (patchX 4)) "Z" (mergeCtx gC4s._context (patchX 4)) 0
    rfl rfl rfl rfl
    (fun ns h => by
      have h2 : ["B"] = ns := Option.some.inj h
      rw [← h2]
      decide)

/-- Claim C7: when the active node's `next` returns nothing, the run
terminates normally: `step` returns `false` with the graph unchanged, `run`
resolves with the context accumulated so far, and — concretely on the chain
`A → B → C` where `B` returns nothing despite the wired edge `B → C` —
`run` ends after `B` with `C` never invoked (its `{c:1}` patch is absent
from the final context). -/
theorem step_nothing_terminates {V : Type} (g : Graph V)
    (cn : CurrentNode V) (nd : Node V) (fuel : Nat)
    (hc : g._currentNode = some cn) (hn : cn.node = some nd)
    (hnext : nd.next g._context ((mapGet g._transitions cn.key).getD []) = .ok none) :
    g.step none = .ok (g, false)
    ∧ g.run none (fuel + 1) = .ok (some g._context)
    ∧ (gC7s.run none 5).map (fun r? => r?.map (fun c => (c "a", c "c")))
        = .ok (some (some 1, none)) := by
  have hstep : g.step none = .ok (g, false) := by
    simp only [Graph.step, applyPatch_none, hc, hn, hnext]
    rw [← hc]
  refine ⟨hstep, ?_, rfl⟩
  simp only [Graph.run, applyPatch_none, Graph.runLoop, hstep]
  simp

/-- Witness for C7 at the chain state `gC7b` (pointer at `B`, edge `B → C`
wired, `B` returns nothing). -/
theorem step_nothing_terminates_witness :
    gC7b.step none = .ok (gC7b, false)
    ∧ gC7b.run none 1 = .ok (some gC7b._context)
    ∧ (gC7s.run none 5).map (fun r? => r?.map (fun c => (c "a", c "c")))
        = .ok (some (some 1, none)) :=
  step_nothing_terminates gC7b ⟨some nodeStop, "B"⟩ nodeStop 0 rfl rfl rfl

/-- Counterexample to claim C9 as stated: even with no start node ever
designated, `step` THROWS when its patch argument is a function patch
whose body throws (the patch application precedes both the `try` block and
the current-node check). -/
theorem step_before_start_throwing_patch_rejects :
    (Graph.new : Graph Nat).step (some throwingPatch) = .error (.thrown "patch boom") :=
  rfl

/-- Claim C9 as amended: if `setStart` has never been called and applying
the patch does not throw, `step(patch)` merges the patch into the context,
invokes no node, and returns `false`; `run(patch)` then resolves without
invoking any node — with the patch applied twice (once by `run` itself and
once by the `step` it calls, since `run` forwards its argument), which for
a static patch coincides with a single application. -/
theorem step_before_start_merges_and_halts {V : Type} (g : Graph V)
    (patch? : Option (Patch V)) (c₁ c₂ : Ctx V) (fuel : Nat)
    (h0 : g._currentNode = none)
    (h1 : Graph.applyPatch g._context patch? = .ok c₁)
    (h2 : Graph.applyPatch c₁ patch? = .ok c₂) :
    g.step patch? = .ok ({ g with _context := c₁ }, false)
    ∧ g.run patch? (fuel + 1) = .ok (some c₂) := by
  have hstep1 : g.step patch? = .ok ({ g with _context := c₁ }, false) := by
    simp only [Graph.step, h1, h0]
  have hstep2 : ({ g with _context := c₁ } : Graph V).step patch?
      = .ok ({ g with _context := c₂ }, false) := by
    simp only [Graph.step, h2, h0]
  refine ⟨hstep1, ?_⟩
  simp only [Graph.run, h1, Graph.runLoop, hstep2]
  simp

/-- Witness for the amended C9: a fresh graph, static patch `{x:5}`. -/
theorem step_before_start_witness :
    (Graph.new : Graph Nat).step (some (Patch.static (patchX 5)))
        = .ok ({ Graph.new with _context := mergeCtx Graph.new._context (patchX 5) }, false)
    ∧ (Graph.new : Graph Nat).run (some (Patch.static (patchX 5))) 1
        = .ok (some (mergeCtx (mergeCtx Graph.new._context (patchX 5)) (patchX 5))) :=
  step_before_start_merges_and_halts (Graph.new : Graph Nat)
    (some (Patch.static (patchX 5)))
    (mergeCtx Graph.new._context (patchX 5))
    (mergeCtx (mergeCtx Graph.new._context (patchX 5)) (patchX 5)) 0 rfl rfl rfl

end Tinygraph
